import Mathlib

/-!
Verification of the SVR training backend (src/backend/main.py).

The development shallowly embeds the two endpoints of the FastAPI app:
`upload_file_info` (POST /api/v1/upload-info) and `train_svr_model`
(POST /api/v1/train-svr), together with the helper `read_file` and the
data-preparation pipeline (feature selection, mean imputation,
train/test split, metric computation).

Modelling conventions:
* a pandas cell is `Cell`: a numeric value (ℚ), a text value, or the
  missing marker (NaN); a DataFrame is a list of named columns;
* Python floats are modelled as ℚ, with `Option ℚ` where a NaN can be
  produced or observed (`none` = NaN);
* library calls whose code is outside this repository (scikit-learn,
  pandas, numpy) are embedded following their documented/observable
  behaviour, noted at each definition;
* the fitted SVR predictor itself is an opaque numeric function; the
  pipeline is parameterised by it (`predictor`), so theorems hold for
  every possible fitted model.
-/

namespace SVRApp

/-- A single cell of a parsed table: numeric, text, or the missing marker
(pandas NaN). -/
inductive Cell where
  | num (val : ℚ)
  | text (s : String)
  | missing
deriving DecidableEq

/-- Whether a cell holds text. -/
def Cell.isText : Cell → Bool
  | .text _ => true
  | _ => false

/-- Whether a cell is the missing marker. -/
def Cell.isMissing : Cell → Bool
  | .missing => true
  | _ => false

/-- The numeric value of a cell, when it has one. -/
def Cell.numVal? : Cell → Option ℚ
  | .num v => some v
  | _ => none

/-- A parsed table (`pandas.DataFrame`): named columns of cells. -/
structure DataFrame where
  cols : List (String × List Cell)
deriving DecidableEq

/-- The column names, in order (`df.columns`). -/
def dfColumns (df : DataFrame) : List String := df.cols.map Prod.fst

/-- The row count (`len(df)`): the length of the first column, 0 for a
table with no columns. -/
def dfRows (df : DataFrame) : Nat :=
  match df.cols with
  | [] => 0
  | c :: _ => c.2.length

/-- The cells of the named column (`df[name]`); `[]` when absent (the
pipeline only reads columns it has checked for). -/
def dfCol (df : DataFrame) (name : String) : List Cell :=
  ((df.cols.find? (fun c => c.1 == name)).map Prod.snd).getD []

/-- Python `s.lower()` (ASCII case folding, as in the source's filenames). -/
def pyLower (s : String) : String := ⟨s.data.map Char.toLower⟩

/-- Python `s.endswith(t)`. -/
def pyEndsWith (s t : String) : Bool := decide (t.data <:+ s.data)

/-- Python `s.split(".")[-1]`: the segment after the last dot, the whole
string when there is no dot. -/
def lastDotSegment (s : String) : String :=
  ⟨(s.data.reverse.takeWhile (fun c => c != '.')).reverse⟩

/-- Python `repr` of a list of strings, as an f-string renders it:
`['csv', 'xlsx', 'xls']`. -/
def pyStrListRepr (l : List String) : String :=
  "[" ++ String.intercalate ", " (l.map (fun s => "'" ++ s ++ "'")) ++ "]"

/-- The response envelope (`ApiResponse`): success flag, message, optional
data payload, optional error detail. -/
structure ApiResponse (α : Type) where
  success : Bool
  message : String
  data : Option α
  error : Option String
deriving DecidableEq

/-- The extension allow-list of `upload_file_info`. -/
def allowedExtensions : List String := ["csv", "xlsx", "xls"]

/-- The lowercased final dot-separated segment of the filename, as
`upload_file_info` computes it: `file.filename.split(".")[-1].lower()`. -/
def extOf (fname : String) : String := pyLower (lastDotSegment fname)

/-- The `read_file` helper. Its branch structure is decided by
case-sensitive `str.endswith` tests on the filename; the actual parsing
of the payload is done by pandas (outside this repository), so the parse
outcome is a parameter `parseResult`. A parse failure's message is
wrapped by `read_file`'s own `except` clause, and the unsupported-format
`HTTPException` raised inside the `try` is wrapped the same way; the
strings below are the `str(e)` forms observed at the endpoint boundary
(Starlette's `HTTPException.__str__` is `"{status_code}: {detail}"`). -/
def readFile (fname : String) (parseResult : Except String DataFrame) :
    Except String DataFrame :=
  if pyEndsWith fname ".csv" || (pyEndsWith fname ".xlsx" || pyEndsWith fname ".xls") then
    match parseResult with
    | .ok df => .ok df
    | .error e => .error ("400: Error reading file: " ++ e)
  else
    .error "400: Error reading file: 400: Unsupported file format"

/-- The pandas dtype string reported for a column, modelled from pandas
type inference on read: any text makes the column `object`; a missing
value or a non-integer value makes it `float64`; otherwise `int64`. -/
def dtypeStr (cells : List Cell) : String :=
  if cells.any Cell.isText then "object"
  else if cells.any Cell.isMissing then "float64"
  else if cells.all (fun c => match c with | .num v => v.den == 1 | _ => true) then "int64"
  else "float64"

/-- Count of missing values in a column (`df[col].isnull().sum()`). -/
def countMissing (cells : List Cell) : Nat := (cells.filter Cell.isMissing).length

/-- A preview cell: missing rendered as the empty string
(`df.head().fillna("")`). -/
def previewCell : Cell → Cell
  | .missing => .text ""
  | c => c

/-- The first five rows as name-to-value records (`df.head().fillna("").to_dict('records')`). -/
def dfPreview (df : DataFrame) : List (List (String × Cell)) :=
  (List.range (min 5 (dfRows df))).map
    (fun i => df.cols.map (fun c => (c.1, previewCell (c.2.getD i Cell.missing))))

/-- The `FileInfo` payload of a successful upload-info request. -/
structure FileInfo where
  filename : String
  shape : Nat × Nat
  columns : List String
  dtypes : List (String × String)
  missing_values : List (String × Nat)
  preview : List (List (String × Cell))
deriving DecidableEq

/-- The `FileInfo` built from a parsed table. -/
def fileInfoOf (fname : String) (df : DataFrame) : FileInfo :=
  { filename := fname
    shape := (dfRows df, (dfColumns df).length)
    columns := dfColumns df
    dtypes := df.cols.map (fun c => (c.1, dtypeStr c.2))
    missing_values := df.cols.map (fun c => (c.1, countMissing c.2))
    preview := dfPreview df }

/-- The size rejection test of `upload_file_info`:
`if file.size and file.size > max_size` — a `None` or `0` size is falsy
and skips the check. -/
def sizeRejected (size : Option Nat) (maxSize : Nat) : Bool :=
  match size with
  | none => false
  | some s => (s != 0) && decide (maxSize < s)

/-- The `POST /api/v1/upload-info` endpoint. `maxSize` is the configured
`MAX_FILE_SIZE` (default 50485760), `size` the transport-reported payload
size, `parseResult` the external parser's outcome on the payload. Every
branch of the Python function, including the final `except Exception`,
returns an `ApiResponse`. -/
def upload_file_info (maxSize : Nat) (size : Option Nat) (fname : String)
    (parseResult : Except String DataFrame) : ApiResponse FileInfo :=
  if sizeRejected size maxSize then
    { success := false, message := "File too large", data := none
      error := some ("File size exceeds " ++ toString maxSize ++ " bytes") }
  else if !(allowedExtensions.contains (extOf fname)) then
    { success := false, message := "Invalid file format", data := none
      error := some ("Only " ++ pyStrListRepr allowedExtensions ++ " files are allowed") }
  else
    match readFile fname parseResult with
    | .error e =>
        { success := false, message := "Failed to process file", data := none
          error := some e }
    | .ok df =>
        { success := true, message := "File uploaded successfully"
          data := some (fileInfoOf fname df), error := none }

/-- The parsed training parameters (`SVRParameters.parse_raw`). The pydantic
model types `gamma` as `Optional[str]`; pydantic v1's `str` validator
coerces a numeric JSON value to its decimal string (`str(v)`), so after
parsing `gamma` is always a string. -/
structure SVRParameters where
  C : ℚ
  epsilon : ℚ
  gamma : String
  kernel : String
  target_column : String
  feature_columns : Option (List String)
  test_size : ℚ
  random_state : Int
deriving DecidableEq

/-- Feature-column selection (`train_svr_model` lines 203-206). Python
truthiness: `if params.feature_columns:` takes the explicit list only when
it is non-`None` and non-empty; otherwise all columns except the target. -/
def selectedFeatureCols (df : DataFrame) (p : SVRParameters) : List String :=
  match p.feature_columns with
  | some (c :: rest) => c :: rest
  | _ => (dfColumns df).filter (fun c => c != p.target_column)

/-- The requested feature columns absent from the table
(`[col for col in feature_cols if col not in df.columns]`). -/
def missingCols (df : DataFrame) (cols : List String) : List String :=
  cols.filter (fun c => !((dfColumns df).contains c))

/-- Whether a column has numeric dtype: no text cell (a column of numbers
and NaNs is numeric for `select_dtypes(include=[np.number])`). -/
def isNumericCol (cells : List Cell) : Bool := cells.all (fun c => !(Cell.isText c))

/-- The columns kept by `df[feature_cols].select_dtypes(include=[np.number])`. -/
def numericFeatureCols (df : DataFrame) (cols : List String) : List String :=
  cols.filter (fun c => isNumericCol (dfCol df c))

/-- The non-missing numeric values of a column. -/
def colNumVals (cells : List Cell) : List ℚ := cells.filterMap Cell.numVal?

/-- The column mean pandas computes (`X.mean()`: skips NaN); `none` models
the NaN mean of an entirely missing column. -/
def colMeanQ (cells : List Cell) : Option ℚ :=
  match colNumVals cells with
  | [] => none
  | v :: vs => some ((v :: vs).sum / (v :: vs).length)

/-- Mean imputation of one column (`X.fillna(X.mean())`): each missing
cell becomes the column mean; when the mean itself is NaN (entirely
missing column) `fillna` fills NaN with NaN and the column is unchanged. -/
def imputeCol (cells : List Cell) : List Cell :=
  match colMeanQ cells with
  | none => cells
  | some m => cells.map (fun c => match c with | .missing => .num m | c => c)

/-- Imputation of the target (`y.fillna(y.mean())`): pandas `Series.mean`
on a text (object-dtype) column raises, and the raise happens before
`fillna` runs; on a numeric column it is the same mean fill. The error
string models the pandas conversion failure. -/
def imputeTarget (cells : List Cell) : Except String (List Cell) :=
  if cells.any Cell.isText then
    .error "could not convert string to float"
  else
    .ok (imputeCol cells)

/-- The test-partition size of `sklearn.model_selection.train_test_split`
with a float `test_size`: `n_test = ceil(test_size * n_samples)`
(sklearn `_validate_shuffle_split`). -/
def nTestOf (rows : Nat) (f : ℚ) : Nat := ⌈f * (rows : ℚ)⌉₊

/-- Modelled from the spec: the seeded pseudo-random shuffle inside
`train_test_split` ("same algorithm family as a seeded pseudo-random
shuffle followed by a fractional cut"). The numpy `RandomState(seed)`
permutation is code outside this repository; any seed-determined
permutation of `range rows` realises the partition properties the spec
states (determinism, sizes, disjoint cover), and a seed-determined
rotation is used here. -/
def permIndices (seed : Int) (rows : Nat) : List Nat :=
  (List.range rows).rotate seed.toNat

/-- The test row indices: the first `n_test` entries of the shuffle. -/
def testIdxOf (seed : Int) (rows : Nat) (f : ℚ) : List Nat :=
  (permIndices seed rows).take (nTestOf rows f)

/-- The training row indices: the remaining entries of the shuffle. -/
def trainIdxOf (seed : Int) (rows : Nat) (f : ℚ) : List Nat :=
  (permIndices seed rows).drop (nTestOf rows f)

/-- The mean of a list of rationals (0 on the empty list, which the
pipeline never evaluates). -/
def listMean (xs : List ℚ) : ℚ := xs.sum / (xs.length : ℚ)

/-- The population variance (`StandardScaler` uses the biased variance,
`ddof = 0`). -/
def pvariance (xs : List ℚ) : ℚ := listMean (xs.map (fun x => (x - listMean xs) ^ 2))

/-- The standardisation transform of `StandardScaler`: per value,
`(x - mean) / scale`, with `mean` and `scale` fit parameters. The fitted
`scale` is the square root of the training variance, an irrational in
general, so theorems quantify over any `s` with `s * s = pvariance`. -/
def standardize (m s : ℚ) (xs : List ℚ) : List ℚ := xs.map (fun x => (x - m) / s)

/-- The scaler's fit parameters, per column mean and (biased) variance,
computed from the rows it is fit on (`scaler.fit_transform(X_train)`). -/
def scalerFitParams (cols : List (List ℚ)) : List (ℚ × ℚ) :=
  cols.map (fun c => (listMean c, pvariance c))

/-- Sum of squared residuals, `Σ (y - ŷ)²`. -/
def ssRes (ys yhat : List ℚ) : ℚ := (List.zipWith (fun a b => (a - b) ^ 2) ys yhat).sum

/-- Total sum of squares about the mean, `Σ (y - mean y)²`. -/
def ssTot (ys : List ℚ) : ℚ := (ys.map (fun a => (a - listMean ys) ^ 2)).sum

/-- `sklearn.metrics.mean_squared_error`; `none` for an empty partition
(which sklearn rejects and the pipeline never produces). -/
def mseOf (ys yhat : List ℚ) : Option ℚ :=
  if ys.length = 0 then none else some (ssRes ys yhat / (ys.length : ℚ))

/-- `sklearn.metrics.mean_absolute_error`. -/
def maeOf (ys yhat : List ℚ) : Option ℚ :=
  if ys.length = 0 then none
  else some ((List.zipWith (fun a b => |a - b|) ys yhat).sum / (ys.length : ℚ))

/-- `sklearn.metrics.r2_score`, from sklearn `_regression.py`: with fewer
than two samples the score is NaN (`none`, with an UndefinedMetricWarning);
with a zero denominator (constant `y_true`) the score is 1.0 when the
numerator is also zero and 0.0 otherwise; else `1 - SS_res / SS_tot`. -/
def r2Of (ys yhat : List ℚ) : Option ℚ :=
  if ys.length < 2 then none
  else if ssTot ys = 0 then (if ssRes ys yhat = 0 then some 1 else some 0)
  else some (1 - ssRes ys yhat / ssTot ys)

/-- The six metric values of `SVRMetrics`; `Option ℚ` models a Python
float that may be NaN. -/
structure SVRMetrics where
  train_mse : Option ℚ
  test_mse : Option ℚ
  train_r2 : Option ℚ
  test_r2 : Option ℚ
  train_mae : Option ℚ
  test_mae : Option ℚ
deriving DecidableEq

/-- The parts of `SVRResult` with numeric or structural content: the
resolved feature columns recorded in `model_parameters` and `data_info`
(both are `X.columns.tolist()`), the metrics, and the sample counts. The
two plot artifacts are opaque rasters produced by matplotlib (outside
this repository) and carry no claim, so they are not modelled. -/
structure SVRResult where
  feature_columns_used : List String
  metrics : SVRMetrics
  total_samples : Nat
  training_samples : Nat
  test_samples : Nat
  features : Nat
  feature_names : List String
deriving DecidableEq

/-- How `train_svr_model`'s body aborts: `early` for the explicit
`return ApiResponse(...)` validation branches (each with its own
message), `exn` for a raised exception caught by the endpoint's final
`except Exception` (message `"Failed to train SVR model"`). -/
inductive TrainAbort where
  | early (message : String) (error : String)
  | exn (error : String)
deriving DecidableEq

/-- The parameter validation `sklearn.svm.SVR.fit` performs on the data
and hyperparameters (BaseLibSVM.fit and libsvm's parameter check),
modelled from sklearn: NaN in X or y is rejected; a string gamma must be
`'scale'` or `'auto'`; the kernel must be a known kernel; `C` must be
positive and `epsilon` non-negative. `none` means fit proceeds. -/
def svrFitErr (p : SVRParameters) (Xtr : List (List Cell)) (ytr : List Cell) :
    Option String :=
  if Xtr.any (fun row => row.any Cell.isMissing) then
    some "Input X contains NaN."
  else if ytr.any Cell.isMissing then
    some "Input y contains NaN."
  else if !(p.gamma == "scale" || p.gamma == "auto") then
    some ("When 'gamma' is a string, it should be either 'scale' or 'auto'. Got '"
      ++ p.gamma ++ "' instead.")
  else if !(["linear", "poly", "rbf", "sigmoid", "precomputed"].contains p.kernel) then
    some ("Unknown kernel type: " ++ p.kernel)
  else if decide (p.C ≤ 0) then some "C <= 0"
  else if decide (p.epsilon < 0) then some "p < 0"
  else none

/-- The numeric value of a cell, for cells the fit guard has already
checked to be numeric. -/
def cellQ : Cell → ℚ
  | .num v => v
  | _ => 0

/-- The body of `train_svr_model` (everything inside its `try`), in the
order of the source: parse/read, target check, feature selection and
check, numeric restriction and emptiness check, mean imputation,
train/test split, scaling, fit, predict, metrics, result assembly.
`predictor` stands for the opaque composition of the fitted scaler and
SVR model (a per-row numeric function); the scaler's fit parameters are
computed from the training partition only (`scalerFitParams`), and the
actual square-root rescaling happens inside the opaque predictor. -/
def trainBody (fname : String) (parseResult : Except String DataFrame)
    (p : SVRParameters) (predictor : List Cell → ℚ) : Except TrainAbort SVRResult :=
  match readFile fname parseResult with
  | .error e => .error (.exn e)
  | .ok df =>
    if !((dfColumns df).contains p.target_column) then
      .error (.early "Invalid target column"
        ("Column '" ++ p.target_column ++ "' not found in dataset"))
    else
      let featureCols := selectedFeatureCols df p
      let absent := missingCols df featureCols
      if !absent.isEmpty then
        .error (.early "Invalid feature columns"
          ("Columns not found: " ++ pyStrListRepr absent))
      else
        let xCols := numericFeatureCols df featureCols
        if xCols.isEmpty || dfRows df = 0 then
          .error (.early "No numeric features found"
            "At least one numeric feature column is required")
        else
          let X := xCols.map (fun c => imputeCol (dfCol df c))
          match imputeTarget (dfCol df p.target_column) with
          | .error e => .error (.exn e)
          | .ok y =>
            if !(decide (0 < p.test_size) && decide (p.test_size < 1)) then
              .error (.exn "test_size should be a float in the (0, 1) range")
            else
              let N := dfRows df
              let nTest := nTestOf N p.test_size
              if N - nTest = 0 || nTest = 0 then
                .error (.exn "the resulting train set will be empty")
              else
                let testIs := testIdxOf p.random_state N p.test_size
                let trainIs := trainIdxOf p.random_state N p.test_size
                let Xtrain := trainIs.map (fun i => X.map (fun col => col.getD i Cell.missing))
                let Xtest := testIs.map (fun i => X.map (fun col => col.getD i Cell.missing))
                let ytrain := trainIs.map (fun i => y.getD i Cell.missing)
                let ytest := testIs.map (fun i => y.getD i Cell.missing)
                match svrFitErr p Xtrain ytrain with
                | some e => .error (.exn e)
                | none =>
                  let ytrainQ := ytrain.map cellQ
                  let ytestQ := ytest.map cellQ
                  let yTrainPred := Xtrain.map predictor
                  let yTestPred := Xtest.map predictor
                  .ok
                    { feature_columns_used := xCols
                      metrics :=
                        { train_mse := mseOf ytrainQ yTrainPred
                          test_mse := mseOf ytestQ yTestPred
                          train_r2 := r2Of ytrainQ yTrainPred
                          test_r2 := r2Of ytestQ yTestPred
                          train_mae := maeOf ytrainQ yTrainPred
                          test_mae := maeOf ytestQ yTestPred }
                      total_samples := N
                      training_samples := trainIs.length
                      test_samples := testIs.length
                      features := xCols.length
                      feature_names := xCols }

/-- The `POST /api/v1/train-svr` endpoint. It receives the payload size
(`file.size`) like any upload but, unlike `upload_file_info`, never
checks it — `size` is deliberately an unused argument, mirroring the
source. Success wraps the result; an `early` abort returns that branch's
`ApiResponse`; a raised exception is caught by the final
`except Exception` and wrapped with `success=False`. -/
def train_svr_model (size : Option Nat) (fname : String)
    (parseResult : Except String DataFrame) (p : SVRParameters)
    (predictor : List Cell → ℚ) : ApiResponse SVRResult :=
  let _ := size
  match trainBody fname parseResult p predictor with
  | .ok r =>
      { success := true, message := "SVR model trained successfully"
        data := some r, error := none }
  | .error (.early m e) =>
      { success := false, message := m, data := none, error := some e }
  | .error (.exn e) =>
      { success := false, message := "Failed to train SVR model"
        data := none, error := some e }

/-- A decimal numeral string, the form pydantic v1's `str` coercion gives
a numeric JSON value (`str(v)` of an int or float: digits, sign, point,
exponent marker). Used to characterise "a numeric gamma" after parsing. -/
def isDecimalNumeral (s : String) : Bool :=
  !s.data.isEmpty &&
    s.data.all (fun c => c.isDigit || (c == '.' || (c == '-' || (c == '+' || c == 'e'))))

/-- Fixture: a 10-row table with numeric feature column `a` and target
column `y` (Scenario-A-like data for the concrete theorems). -/
def sampleDf : DataFrame :=
  ⟨[("a", [Cell.num 0, Cell.num 1, Cell.num 2, Cell.num 3, Cell.num 4,
           Cell.num 5, Cell.num 6, Cell.num 7, Cell.num 8, Cell.num 9]),
    ("y", [Cell.num 1, Cell.num 2, Cell.num 3, Cell.num 4, Cell.num 5,
           Cell.num 6, Cell.num 7, Cell.num 8, Cell.num 9, Cell.num 10])]⟩

/-- Fixture: the default `SVRParameters` of the pydantic model with
target `y`. -/
def sampleParams : SVRParameters :=
  { C := 1, epsilon := 1/10, gamma := "scale", kernel := "rbf",
    target_column := "y", feature_columns := none, test_size := 1/5, random_state := 42 }

/-- Fixture: a 10-row table whose target column is constant (Scenario D). -/
def constTargetDf : DataFrame :=
  ⟨[("a", [Cell.num 0, Cell.num 1, Cell.num 2, Cell.num 3, Cell.num 4,
           Cell.num 5, Cell.num 6, Cell.num 7, Cell.num 8, Cell.num 9]),
    ("y", [Cell.num 5, Cell.num 5, Cell.num 5, Cell.num 5, Cell.num 5,
           Cell.num 5, Cell.num 5, Cell.num 5, Cell.num 5, Cell.num 5])]⟩

/-- Fixture: a 5-row table; with `test_size = 0.2` its test partition has
exactly one sample. -/
def fiveRowDf : DataFrame :=
  ⟨[("a", [Cell.num 0, Cell.num 1, Cell.num 2, Cell.num 3, Cell.num 4]),
    ("y", [Cell.num 0, Cell.num 1, Cell.num 2, Cell.num 3, Cell.num 4])]⟩

/-- Fixture: a table whose only feature column is entirely missing. -/
def allMissingDf : DataFrame :=
  ⟨[("a", [Cell.missing, Cell.missing, Cell.missing, Cell.missing, Cell.missing]),
    ("y", [Cell.num 1, Cell.num 2, Cell.num 3, Cell.num 4, Cell.num 5])]⟩

/-- Fixture: a table without the target column `t`. -/
def absentTargetDf : DataFrame := ⟨[("a", [Cell.num 1, Cell.num 2])]⟩

/-- Fixture: a table that has target column `t` (for requests naming an
absent feature column while the target exists). -/
def presentTargetDf : DataFrame := ⟨[("a", [Cell.num 1]), ("t", [Cell.num 2])]⟩

/-- Fixture: a request with target `t` and the absent feature column
`nonexistent` (Scenario B). -/
def absentFeatureParams : SVRParameters :=
  { C := 1, epsilon := 1/10, gamma := "scale", kernel := "rbf",
    target_column := "t", feature_columns := some ["nonexistent"],
    test_size := 1/5, random_state := 42 }

/-! ## Helper lemmas -/

/-- Sum of a constant-shifted list. -/
theorem sum_map_sub_const (l : List ℚ) (c : ℚ) :
    (l.map (fun x => x - c)).sum = l.sum - l.length * c := by
  induction l with
  | nil => simp
  | cons a t ih =>
      simp only [List.map_cons, List.sum_cons, List.length_cons, ih]
      push_cast
      ring

/-- Sum of a list divided entrywise by a constant. -/
theorem sum_map_div_const (l : List ℚ) (f : ℚ → ℚ) (c : ℚ) :
    (l.map (fun x => f x / c)).sum = (l.map f).sum / c := by
  induction l with
  | nil => simp
  | cons a t ih =>
      simp only [List.map_cons, List.sum_cons, ih]
      ring

/-- `takeWhile` stops exactly at the first failing element after a run of
passing ones. -/
theorem takeWhile_append_stop (p : Char → Bool) (l1 l2 : List Char) (a : Char)
    (h1 : ∀ c ∈ l1, p c = true) (ha : p a = false) :
    (l1 ++ a :: l2).takeWhile p = l1 := by
  induction l1 with
  | nil => simp [List.takeWhile_cons, ha]
  | cons x t ih =>
      have hx : p x = true := h1 x (by simp)
      simp [List.takeWhile_cons, hx, ih (fun c hc => h1 c (by simp [hc]))]

/-- The last dot-separated segment of `base ++ "." ++ u` is `u` when `u`
has no dot. -/
theorem lastDotSegment_append (base u : String) (hdot : '.' ∉ u.data) :
    lastDotSegment (base ++ "." ++ u) = u := by
  have hdata : (base ++ "." ++ u).data = base.data ++ '.' :: u.data := by
    rw [String.data_append, String.data_append,
      show (".".data) = ['.'] from rfl, List.append_assoc, List.singleton_append]
  unfold lastDotSegment
  rw [hdata, List.reverse_append, List.reverse_cons, List.append_assoc,
    List.singleton_append]
  rw [takeWhile_append_stop _ _ _ '.'
    (fun c hc => by
      have hcu : c ∈ u.data := List.mem_reverse.mp hc
      have : c ≠ '.' := fun h => hdot (h ▸ hcu)
      simpa using this)
    (by simp)]
  rw [List.reverse_reverse]

/-- In a list of the shape `b ++ '.' :: ud` with no dot in `ud`, the only
suffix of the shape `'.' :: t` with no dot in `t` has `t = ud`. -/
theorem dot_segment_unique {b ud t : List Char}
    (hdu : '.' ∉ ud) (hdt : '.' ∉ t)
    (h : ('.' :: t) <:+ (b ++ '.' :: ud)) : t = ud := by
  have h2 : ('.' :: ud) <:+ (b ++ '.' :: ud) := List.suffix_append b ('.' :: ud)
  rcases List.suffix_or_suffix_of_suffix h h2 with h3 | h3
  · rcases List.suffix_cons_iff.mp h3 with h4 | h4
    · injection h4 with h4a h4b
    · exact absurd (h4.subset (List.mem_cons_self '.' t)) hdu
  · rcases List.suffix_cons_iff.mp h3 with h4 | h4
    · injection h4 with h4a h4b
      exact h4b.symm
    · exact absurd (h4.subset (List.mem_cons_self '.' ud)) hdt

/-! ## C1: train/test partition sizes and determinism -/

/-- C1 counterexample. The claim states `|Test| = round(N × f)`; the
split the code calls (`train_test_split` with a float `test_size`)
takes `ceil`, not `round`: at `N = 101`, `f = 1/5` the test partition
has 21 rows while `round(101 × 1/5) = round(20.2) = 20`. -/
theorem C1_round_counterexample :
    (testIdxOf 42 101 (1/5)).length = 21 ∧
    (round ((1/5 : ℚ) * (101 : ℚ))).toNat = 20 ∧
    (trainIdxOf 42 101 (1/5)).length + (testIdxOf 42 101 (1/5)).length = 101 := by
  refine ⟨?_, ?_, ?_⟩ <;> with_unfolding_all decide

/-- C1 (amended): for every seed, row count `N` and test fraction
`f ∈ (0,1)`, the partition satisfies `|Train| + |Test| = N` and
`|Test| = ⌈N × f⌉` (rounding up, as sklearn's `_validate_shuffle_split`
computes it), and test and train indices together are a permutation of
the row indices. The partition is a pure function of `(seed, N, f)`, so
the same seed and row count give the same partition on every run. -/
theorem C1_split_sizes (seed : Int) (N : Nat) (f : ℚ) (_hpos : 0 < f) (hlt1 : f < 1) :
    (trainIdxOf seed N f).length + (testIdxOf seed N f).length = N ∧
    (testIdxOf seed N f).length = ⌈f * (N : ℚ)⌉₊ ∧
    ((testIdxOf seed N f) ++ (trainIdxOf seed N f)).Perm (List.range N) := by
  have hperm : (permIndices seed N).length = N := by
    simp [permIndices, List.length_rotate]
  have hfn : f * (N : ℚ) ≤ (N : ℚ) := by
    calc f * (N : ℚ) ≤ 1 * (N : ℚ) :=
          mul_le_mul_of_nonneg_right hlt1.le (Nat.cast_nonneg N)
      _ = (N : ℚ) := one_mul _
  have hle : ⌈f * (N : ℚ)⌉₊ ≤ N := Nat.ceil_le.mpr hfn
  refine ⟨?_, ?_, ?_⟩
  · simp only [trainIdxOf, testIdxOf, nTestOf, List.length_drop, List.length_take, hperm]
    omega
  · simp only [testIdxOf, nTestOf, List.length_take, hperm]
    omega
  · rw [testIdxOf, trainIdxOf, List.take_append_drop]
    exact List.rotate_perm _ _

/-- C1 witness: the partition facts at seed 42, 10 rows, fraction 1/5. -/
theorem C1_split_sizes_witness :
    (trainIdxOf 42 10 (1/5)).length + (testIdxOf 42 10 (1/5)).length = 10 ∧
    (testIdxOf 42 10 (1/5)).length = ⌈(1/5 : ℚ) * ((10 : Nat) : ℚ)⌉₊ ∧
    ((testIdxOf 42 10 (1/5)) ++ (trainIdxOf 42 10 (1/5))).Perm (List.range 10) :=
  C1_split_sizes 42 10 (1/5) (by norm_num) (by norm_num)

/-! ## C2: target column among the feature columns -/

/-- C2 counterexample. A request whose explicit `feature_columns` list
contains the target is used as given: the feature matrix of this
successful request has columns `["y", "a"]` with target `"y"` among
them, and training proceeds to a successful response. -/
theorem C2_target_in_features_counterexample :
    (train_svr_model none "data.csv" (.ok sampleDf)
      { sampleParams with feature_columns := some ["y", "a"] } (fun _ => 0)).success
      = true ∧
    ((train_svr_model none "data.csv" (.ok sampleDf)
      { sampleParams with feature_columns := some ["y", "a"] } (fun _ => 0)).data.map
      (fun r => r.feature_names)).getD [] = ["y", "a"] ∧
    (((train_svr_model none "data.csv" (.ok sampleDf)
      { sampleParams with feature_columns := some ["y", "a"] } (fun _ => 0)).data.map
      (fun r => r.feature_names)).getD []).contains "y" = true := by
  refine ⟨?_, ?_, ?_⟩ <;> with_unfolding_all decide

/-- C2 (amended): only when no explicit feature list is supplied (the
`None` default, or an empty list, both falsy in Python) does the code
derive the features as all columns except the target, and then the
target is not among the selected columns nor among the numeric columns
that build the feature matrix. -/
theorem C2_default_excludes_target (df : DataFrame) (p : SVRParameters)
    (h : p.feature_columns = none ∨ p.feature_columns = some []) :
    p.target_column ∉ selectedFeatureCols df p ∧
    p.target_column ∉ numericFeatureCols df (selectedFeatureCols df p) := by
  have hsel : selectedFeatureCols df p
      = (dfColumns df).filter (fun c => c != p.target_column) := by
    rcases h with h | h <;> simp [selectedFeatureCols, h]
  have hnot : p.target_column ∉ selectedFeatureCols df p := by
    rw [hsel]
    intro hmem
    have := List.of_mem_filter hmem
    simp at this
  exact ⟨hnot, fun hmem => hnot (List.mem_of_mem_filter hmem)⟩

/-- C2 witness: default feature selection on the sample table excludes
the target `"y"`. -/
theorem C2_default_excludes_target_witness :
    sampleParams.target_column ∉ selectedFeatureCols sampleDf sampleParams ∧
    sampleParams.target_column ∉
      numericFeatureCols sampleDf (selectedFeatureCols sampleDf sampleParams) :=
  C2_default_excludes_target sampleDf sampleParams (Or.inl rfl)

/-! ## C3: mean imputation and the all-missing column -/

/-- C3 counterexample. No `DegenerateColumnError` exists in the code: an
entirely missing column is left unchanged by `fillna` (its mean is NaN),
and the request then fails inside the generic `except Exception` with
the solver's NaN complaint, not with a `DegenerateColumnError`. -/
theorem C3_no_degenerate_error_counterexample :
    imputeCol [Cell.missing, Cell.missing] = [Cell.missing, Cell.missing] ∧
    train_svr_model none "data.csv" (.ok allMissingDf) sampleParams (fun _ => 0) =
      { success := false, message := "Failed to train SVR model", data := none,
        error := some "Input X contains NaN." } := by
  refine ⟨?_, ?_⟩ <;> with_unfolding_all decide

/-- C3 (amended): for a column with no text cells and at least one
non-missing value, `fillna(mean)` replaces each missing cell with the
column's mean over its non-missing entries, leaves non-missing cells
unchanged, preserves length, leaves no missing value, and the same rule
is applied to the target vector. -/
theorem C3_impute_mean (cells : List Cell) (i j : Nat)
    (hT : cells.all (fun c => !(Cell.isText c)) = true)
    (hv : colNumVals cells ≠ [])
    (hi : cells[i]? = some Cell.missing)
    (hj : cells[j]? ≠ some Cell.missing) :
    (imputeCol cells)[i]? =
      some (Cell.num ((colNumVals cells).sum / ((colNumVals cells).length : ℚ))) ∧
    (imputeCol cells)[j]? = cells[j]? ∧
    (imputeCol cells).length = cells.length ∧
    Cell.missing ∉ imputeCol cells ∧
    imputeTarget cells = Except.ok (imputeCol cells) := by
  have hmean : colMeanQ cells
      = some ((colNumVals cells).sum / ((colNumVals cells).length : ℚ)) := by
    unfold colMeanQ
    rcases hvals : colNumVals cells with _ | ⟨v, vs⟩
    · exact absurd hvals hv
    · simp
  have himp : imputeCol cells = cells.map
      (fun c => match c with
        | .missing => .num ((colNumVals cells).sum / ((colNumVals cells).length : ℚ))
        | c => c) := by
    unfold imputeCol
    rw [hmean]
  refine ⟨?_, ?_, ?_, ?_, ?_⟩
  · rw [himp, List.getElem?_map, hi]
    rfl
  · rw [himp, List.getElem?_map]
    rcases hjc : cells[j]? with _ | c
    · rfl
    · cases c with
      | num v => rfl
      | text s => rfl
      | missing => exact absurd hjc hj
  · rw [himp, List.length_map]
  · rw [himp]
    intro hmem
    rcases List.mem_map.mp hmem with ⟨c, _, hfc⟩
    cases c <;> simp_all
  · unfold imputeTarget
    have hnotext : cells.any Cell.isText = false := by
      rcases hA : cells.any Cell.isText with _ | _
      · rfl
      · rcases List.any_eq_true.mp hA with ⟨c, hc, hct⟩
        have := List.all_eq_true.mp hT c hc
        simp_all
    simp [hnotext]

/-- C3 witness: imputation on `[1, NaN, 3]` puts the mean 2 at the
missing position, keeps position 0, and the target rule matches. -/
theorem C3_impute_mean_witness :
    (imputeCol [Cell.num 1, Cell.missing, Cell.num 3])[1]? =
      some (Cell.num ((colNumVals [Cell.num 1, Cell.missing, Cell.num 3]).sum /
        ((colNumVals [Cell.num 1, Cell.missing, Cell.num 3]).length : ℚ))) ∧
    (imputeCol [Cell.num 1, Cell.missing, Cell.num 3])[0]? =
      [Cell.num 1, Cell.missing, Cell.num 3][0]? ∧
    (imputeCol [Cell.num 1, Cell.missing, Cell.num 3]).length =
      [Cell.num 1, Cell.missing, Cell.num 3].length ∧
    Cell.missing ∉ imputeCol [Cell.num 1, Cell.missing, Cell.num 3] ∧
    imputeTarget [Cell.num 1, Cell.missing, Cell.num 3] =
      Except.ok (imputeCol [Cell.num 1, Cell.missing, Cell.num 3]) :=
  C3_impute_mean [Cell.num 1, Cell.missing, Cell.num 3] 1 0
    (by decide) (by with_unfolding_all decide) (by decide) (by decide)

/-! ## C4: the response envelope -/

/-- C4: every outcome of either endpoint is an `ApiResponse` envelope —
the endpoints are total functions, so no exception escapes — and
failure always carries `success=false` with a populated error string and
no data, while success carries data and no error. -/
theorem C4_error_envelope (maxSize : Nat) (size : Option Nat) (fname : String)
    (parseResult : Except String DataFrame) (p : SVRParameters)
    (predictor : List Cell → ℚ) :
    (((train_svr_model size fname parseResult p predictor).success = true ∧
      (train_svr_model size fname parseResult p predictor).error = none ∧
      (train_svr_model size fname parseResult p predictor).data.isSome = true) ∨
     ((train_svr_model size fname parseResult p predictor).success = false ∧
      (train_svr_model size fname parseResult p predictor).error.isSome = true ∧
      (train_svr_model size fname parseResult p predictor).data = none)) ∧
    (((upload_file_info maxSize size fname parseResult).success = true ∧
      (upload_file_info maxSize size fname parseResult).error = none ∧
      (upload_file_info maxSize size fname parseResult).data.isSome = true) ∨
     ((upload_file_info maxSize size fname parseResult).success = false ∧
      (upload_file_info maxSize size fname parseResult).error.isSome = true ∧
      (upload_file_info maxSize size fname parseResult).data = none)) := by
  constructor
  · cases h : trainBody fname parseResult p predictor with
    | ok r => left; simp [train_svr_model, h]
    | error a =>
        cases a with
        | early m e => right; simp [train_svr_model, h]
        | exn e => right; simp [train_svr_model, h]
  · unfold upload_file_info
    split
    · right; simp
    · split
      · right; simp
      · split
        · right; simp
        · left; simp

/-! ## C5: metric finiteness and the zero-variance R² -/

/-- C5 counterexample. With a constant target and exact predictions,
the code's `r2_score` returns 1, not the claimed 0 (sklearn sets the
score to 1 when numerator and denominator are both zero); the sample
pipeline run returns `train_r2 = 1` in a successful response. Moreover,
a 5-row request leaves a single-sample test partition, for which
`r2_score` emits NaN (`none`), so not all six returned metrics are
finite. -/
theorem C5_r2_counterexample :
    r2Of [5, 5] [5, 5] = some 1 ∧
    (train_svr_model none "data.csv" (.ok constTargetDf) sampleParams
      (fun _ => 5)).success = true ∧
    ((train_svr_model none "data.csv" (.ok constTargetDf) sampleParams
      (fun _ => 5)).data.map (fun r => r.metrics.train_r2)).getD none = some 1 ∧
    ((train_svr_model none "data.csv" (.ok fiveRowDf) sampleParams
      (fun _ => 0)).data.map (fun r => r.metrics.test_r2)).getD (some 0) = none := by
  refine ⟨?_, ?_, ?_, ?_⟩ <;> with_unfolding_all decide

/-- C5 (amended): on a partition with at least two samples, MSE, MAE and
R² are all defined (finite, no NaN); when that partition's targets are
identical (`SS_tot = 0`), R² is 0 if the predictions differ from the
targets (`SS_res ≠ 0`) and 1 if they match exactly (`SS_res = 0`);
otherwise R² is `1 - SS_res / SS_tot`. (On a single-sample partition R²
is NaN, per the counterexample.) -/
theorem C5_metrics_defined (ys yhat : List ℚ) (h2 : 2 ≤ ys.length) :
    (mseOf ys yhat).isSome = true ∧ (maeOf ys yhat).isSome = true ∧
    (r2Of ys yhat).isSome = true ∧
    (if ssTot ys = 0 then
        r2Of ys yhat = some (if ssRes ys yhat = 0 then 1 else 0)
      else r2Of ys yhat = some (1 - ssRes ys yhat / ssTot ys)) := by
  have h0 : ¬ ys.length = 0 := by omega
  have hlt : ¬ ys.length < 2 := by omega
  refine ⟨by simp [mseOf, h0], by simp [maeOf, h0], ?_, ?_⟩
  · simp only [r2Of, if_neg hlt]
    split
    · split <;> simp
    · simp
  · by_cases hst : ssTot ys = 0
    · rw [if_pos hst]
      by_cases hsr : ssRes ys yhat = 0
      · simp [r2Of, hlt, hst, hsr]
      · simp [r2Of, hlt, hst, hsr]
    · rw [if_neg hst]
      simp [r2Of, hlt, hst]

/-- C5 witness: at `y = [5,5]`, `ŷ = [5,6]` the metrics are defined and
the zero-variance branch gives R² = 0. -/
theorem C5_metrics_defined_witness :
    (mseOf [5, 5] [5, 6]).isSome = true ∧ (maeOf [5, 5] [5, 6]).isSome = true ∧
    (r2Of [5, 5] [5, 6]).isSome = true ∧
    (if ssTot [5, 5] = 0 then
        r2Of [5, 5] [5, 6] = some (if ssRes [5, 5] [5, 6] = 0 then 1 else 0)
      else r2Of [5, 5] [5, 6] = some (1 - ssRes [5, 5] [5, 6] / ssTot [5, 5])) :=
  C5_metrics_defined [5, 5] [5, 6] (by decide)

/-! ## C6: the feature scaler -/

/-- Sum of a standardised list. -/
theorem sum_standardize (m c : ℚ) (l : List ℚ) :
    (standardize m c l).sum = (l.sum - l.length * m) / c := by
  unfold standardize
  induction l with
  | nil => simp
  | cons a t ih =>
      simp only [List.map_cons, List.sum_cons, List.length_cons, ih]
      push_cast
      ring

/-- Length of a standardised list. -/
theorem length_standardize (m c : ℚ) (l : List ℚ) :
    (standardize m c l).length = l.length := by
  simp [standardize]

/-- Standardising by the list's own mean centres it exactly at zero. -/
theorem listMean_standardize (l : List ℚ) (c : ℚ) (hn : (l.length : ℚ) ≠ 0) :
    listMean (standardize (listMean l) c l) = 0 := by
  unfold listMean
  rw [length_standardize, sum_standardize]
  have h1 : (l.length : ℚ) * (l.sum / (l.length : ℚ)) = l.sum := by
    field_simp
  rw [h1, sub_self, zero_div, zero_div]

/-- The variance of a standardised list is the original variance divided
by the square of the scale. -/
theorem pvariance_standardize (l : List ℚ) (c : ℚ) (hn : (l.length : ℚ) ≠ 0) :
    pvariance (standardize (listMean l) c l) = pvariance l / c ^ 2 := by
  unfold pvariance
  rw [listMean_standardize l c hn]
  unfold listMean
  simp only [sub_zero, standardize, List.map_map, Function.comp_def, div_pow,
    List.length_map]
  rw [sum_map_div_const l (fun x => (x - l.sum / (l.length : ℚ)) ^ 2) (c ^ 2)]
  ring

/-- C6: the scaler's parameters (mean and scale) come from the training
column only; standardising the training column with them yields exact
mean 0 — in particular within the stated 1e-9 tolerance — and unit
variance (so unit standard deviation), for any scale `s` realising
`s² = variance` with `s ≠ 0`, i.e. away from the zero-variance edge
case. The identical `(x - mean)/s` transform is what `transform` applies
to the test partition. -/
theorem C6_scaler_invariant (xs : List ℚ) (s : ℚ) (hne : xs ≠ [])
    (hs : s * s = pvariance xs) (h0 : s ≠ 0) :
    listMean (standardize (listMean xs) s xs) = 0 ∧
    |listMean (standardize (listMean xs) s xs)| ≤ 1 / 1000000000 ∧
    pvariance (standardize (listMean xs) s xs) = 1 := by
  have hn : (xs.length : ℚ) ≠ 0 := by
    have hx : xs.length ≠ 0 := fun h => hne (List.length_eq_zero.mp h)
    exact_mod_cast Nat.cast_ne_zero.mpr hx
  have h1 := listMean_standardize xs s hn
  have h2 : pvariance (standardize (listMean xs) s xs) = 1 := by
    rw [pvariance_standardize xs s hn, ← hs, pow_two]
    exact div_self (mul_ne_zero h0 h0)
  exact ⟨h1, by rw [h1]; norm_num, h2⟩

/-- C6 witness: the column `[0, 2]` has mean 1 and variance 1, so scale
1 standardises it to `[-1, 1]` with mean 0 and variance 1. -/
theorem C6_scaler_invariant_witness :
    listMean (standardize (listMean [0, 2]) 1 [0, 2]) = 0 ∧
    |listMean (standardize (listMean [0, 2]) 1 [0, 2])| ≤ 1 / 1000000000 ∧
    pvariance (standardize (listMean [0, 2]) 1 [0, 2]) = 1 :=
  C6_scaler_invariant [0, 2] 1 (by decide) (by with_unfolding_all decide) one_ne_zero

/-! ## C7: the gamma hyperparameter -/

/-- C7 counterexample. A numeric gamma supplied in the request JSON is
coerced by the pydantic `Optional[str]` field to its decimal string
(`"0.5"`), which the fit then rejects: the request does not train
successfully but fails with the gamma error. -/
theorem C7_numeric_gamma_counterexample :
    train_svr_model none "data.csv" (.ok sampleDf)
      { sampleParams with gamma := "0.5" } (fun _ => 0) =
      { success := false, message := "Failed to train SVR model", data := none,
        error := some "When 'gamma' is a string, it should be either 'scale' or 'auto'. Got '0.5' instead." } := by
  with_unfolding_all decide

/-- C7 (amended): after parsing, gamma is always a string; a decimal
numeral string (the coerced form of any numeric gamma) is neither
`"scale"` nor `"auto"`, so the fit rejects it with the gamma error,
while the enumerated policy `"scale"` trains successfully. -/
theorem C7_gamma_string_policy (g : String) (hg : isDecimalNumeral g = true) :
    (g == "scale") = false ∧ (g == "auto") = false ∧
    svrFitErr { sampleParams with gamma := g } [[Cell.num 0]] [Cell.num 0] =
      some ("When 'gamma' is a string, it should be either 'scale' or 'auto'. Got '"
        ++ g ++ "' instead.") ∧
    (train_svr_model none "data.csv" (.ok sampleDf) sampleParams
      (fun _ => 0)).success = true := by
  have hsc : g ≠ "scale" := by
    intro h
    subst h
    exact absurd hg (by decide)
  have hau : g ≠ "auto" := by
    intro h
    subst h
    exact absurd hg (by decide)
  have hbs : (g == "scale") = false := beq_eq_false_iff_ne.mpr hsc
  have hba : (g == "auto") = false := beq_eq_false_iff_ne.mpr hau
  refine ⟨hbs, hba, ?_, by with_unfolding_all decide⟩
  simp [svrFitErr, hbs, hba, Cell.isMissing]

/-- C7 witness: the coerced numeric gamma `"0.5"`. -/
theorem C7_gamma_string_policy_witness :
    ("0.5" == "scale") = false ∧ ("0.5" == "auto") = false ∧
    svrFitErr { sampleParams with gamma := "0.5" } [[Cell.num 0]] [Cell.num 0] =
      some ("When 'gamma' is a string, it should be either 'scale' or 'auto'. Got '"
        ++ "0.5" ++ "' instead.") ∧
    (train_svr_model none "data.csv" (.ok sampleDf) sampleParams
      (fun _ => 0)).success = true :=
  C7_gamma_string_policy "0.5" (by decide)

/-! ## C8: absent feature columns -/

/-- C8 counterexample. A request that names an absent feature column
while its target is also absent is rejected by the earlier target check:
the response is `success=false` but its error names only the target and
does not list the missing feature column `"z"`. -/
theorem C8_absent_target_counterexample :
    missingCols absentTargetDf ["z"] = ["z"] ∧
    train_svr_model none "data.csv" (.ok absentTargetDf)
      { sampleParams with target_column := "t", feature_columns := some ["z"] }
      (fun _ => 0) =
      { success := false, message := "Invalid target column", data := none,
        error := some "Column 't' not found in dataset" } ∧
    ("Column 't' not found in dataset".data.contains 'z') = false := by
  refine ⟨?_, ?_, ?_⟩ <;> with_unfolding_all decide

/-- C8 (amended): when the file reads and the target column exists,
a request naming absent feature columns gets `success=false` with the
error string listing exactly the absent names, in request order. -/
theorem C8_missing_features_listed (df : DataFrame) (p : SVRParameters)
    (size : Option Nat) (predictor : List Cell → ℚ)
    (hT : (dfColumns df).contains p.target_column = true)
    (hM : (missingCols df (selectedFeatureCols df p)).isEmpty = false) :
    train_svr_model size "data.csv" (.ok df) p predictor =
      { success := false, message := "Invalid feature columns", data := none,
        error := some ("Columns not found: "
          ++ pyStrListRepr (missingCols df (selectedFeatureCols df p))) } := by
  have hrf : readFile "data.csv" (Except.ok df) = .ok df := by
    with_unfolding_all rfl
  have hTm : p.target_column ∈ dfColumns df := by simpa using hT
  unfold train_svr_model trainBody
  rw [hrf]
  simp [hT, hTm, hM]

/-- C8 witness: target `"t"` present, requested feature `"nonexistent"`
absent. -/
theorem C8_missing_features_listed_witness :
    train_svr_model none "data.csv" (.ok presentTargetDf) absentFeatureParams
      (fun _ => 0) =
      { success := false, message := "Invalid feature columns", data := none,
        error := some ("Columns not found: "
          ++ pyStrListRepr (missingCols presentTargetDf
            (selectedFeatureCols presentTargetDf absentFeatureParams))) } :=
  C8_missing_features_listed presentTargetDf absentFeatureParams
    none (fun _ => 0) (by with_unfolding_all decide) (by with_unfolding_all decide)

/-! ## C9: the payload size limit -/

/-- C9 counterexample. The same oversized payload (999999999 bytes
against the default 50485760-byte limit) is rejected by `upload-info`
but sails through `train-svr`, which has no size check and trains
successfully. -/
theorem C9_train_size_unchecked_counterexample :
    (upload_file_info 50485760 (some 999999999) "data.csv"
      (.ok sampleDf)).success = false ∧
    (train_svr_model (some 999999999) "data.csv" (.ok sampleDf) sampleParams
      (fun _ => 0)).success = true := by
  refine ⟨?_, ?_⟩ <;> with_unfolding_all decide

/-- C9 (amended): only `upload-info` enforces the size limit — a payload
over `maxSize` is rejected there before any parsing, with the size
message — while `train-svr` ignores the reported payload size entirely:
its response is the same for every size value. -/
theorem C9_size_limit_upload_only (maxSize s : Nat) (size2 : Option Nat)
    (fname : String) (parseResult : Except String DataFrame) (p : SVRParameters)
    (predictor : List Cell → ℚ) (hs : maxSize < s) (h0 : s ≠ 0) :
    upload_file_info maxSize (some s) fname parseResult =
      { success := false, message := "File too large", data := none,
        error := some ("File size exceeds " ++ toString maxSize ++ " bytes") } ∧
    train_svr_model (some s) fname parseResult p predictor =
      train_svr_model size2 fname parseResult p predictor := by
  constructor
  · have hrej : sizeRejected (some s) maxSize = true := by
      simp [sizeRejected, bne_iff_ne, h0, hs]
    simp [upload_file_info, hrej]
  · rfl

/-- C9 witness: the concrete oversized payload of the counterexample. -/
theorem C9_size_limit_upload_only_witness :
    upload_file_info 50485760 (some 999999999) "data.csv" (.ok sampleDf) =
      { success := false, message := "File too large", data := none,
        error := some ("File size exceeds " ++ toString (50485760 : Nat) ++ " bytes") } ∧
    train_svr_model (some 999999999) "data.csv" (.ok sampleDf) sampleParams
      (fun _ => 0) =
      train_svr_model none "data.csv" (.ok sampleDf) sampleParams (fun _ => 0) :=
  C9_size_limit_upload_only 50485760 999999999 none "data.csv" (.ok sampleDf)
    sampleParams (fun _ => 0) (by norm_num) (by norm_num)

/-! ## C10: uppercase extension variants -/

/-- C10: for every filename `base ++ "." ++ u` whose final segment `u`
has no dot, lowercases into the allow-list, but is not itself lowercase,
the upload-info extension check passes (first conjunct) while the
case-sensitive `read_file` dispatch matches no branch, so the response
is the failure envelope with the file-reading error (second conjunct);
the payload size here is unreported (`None`), which skips the size
check. -/
theorem C10_uppercase_extension_rejected (base u : String) (maxSize : Nat)
    (parseResult : Except String DataFrame)
    (hdot : '.' ∉ u.data)
    (hlow : allowedExtensions.contains (pyLower u) = true)
    (hne : u ≠ pyLower u) :
    allowedExtensions.contains (extOf (base ++ "." ++ u)) = true ∧
    upload_file_info maxSize none (base ++ "." ++ u) parseResult =
      { success := false, message := "Failed to process file", data := none,
        error := some "400: Error reading file: 400: Unsupported file format" } := by
  have hext : extOf (base ++ "." ++ u) = pyLower u := by
    unfold extOf
    rw [lastDotSegment_append base u hdot]
  have hdata : (base ++ "." ++ u).data = base.data ++ '.' :: u.data := by
    rw [String.data_append, String.data_append,
      show (".".data) = ['.'] from rfl, List.append_assoc, List.singleton_append]
  have hgen : ∀ (t : List Char), '.' ∉ t → u.data ≠ t →
      pyEndsWith (base ++ "." ++ u) ⟨'.' :: t⟩ = false := by
    intro t hdt hut
    unfold pyEndsWith
    apply decide_eq_false
    intro hsfx
    have hsfx2 : ('.' :: t) <:+ (base.data ++ '.' :: u.data) := hdata ▸ hsfx
    exact hut (dot_segment_unique hdot hdt hsfx2).symm
  have hfix : ∀ (t : List Char), (⟨t⟩ : String) = pyLower ⟨t⟩ → u.data ≠ t := by
    intro t htl h
    apply hne
    have hu : u = ⟨t⟩ := by
      rw [show u = ⟨u.data⟩ from rfl, h]
    rw [hu]
    exact htl
  have hcsv : pyEndsWith (base ++ "." ++ u) ".csv" = false :=
    hgen ['c', 's', 'v'] (by decide) (hfix ['c', 's', 'v'] (by decide))
  have hxlsx : pyEndsWith (base ++ "." ++ u) ".xlsx" = false :=
    hgen ['x', 'l', 's', 'x'] (by decide) (hfix ['x', 'l', 's', 'x'] (by decide))
  have hxls : pyEndsWith (base ++ "." ++ u) ".xls" = false :=
    hgen ['x', 'l', 's'] (by decide) (hfix ['x', 'l', 's'] (by decide))
  have hlowm : pyLower u ∈ allowedExtensions := by simpa using hlow
  refine ⟨by rw [hext]; exact hlow, ?_⟩
  unfold upload_file_info readFile
  simp [sizeRejected, hext, hlow, hlowm, hcsv, hxlsx, hxls]

/-- C10 witness: the filename `"data.CSV"`. -/
theorem C10_uppercase_extension_rejected_witness :
    allowedExtensions.contains (extOf ("data" ++ "." ++ "CSV")) = true ∧
    upload_file_info 50485760 none ("data" ++ "." ++ "CSV") (.ok ⟨[]⟩) =
      { success := false, message := "Failed to process file", data := none,
        error := some "400: Error reading file: 400: Unsupported file format" } :=
  C10_uppercase_extension_rejected "data" "CSV" 50485760 (.ok ⟨[]⟩)
    (by decide) (by decide) (by decide)

end SVRApp
